import Mathlib

/-!
Verification development for the trojan relay core header
(`src/core/utils.h`): the write coalescer (`SendDataCache`), the read
adapter (`ReadDataCache`), the outbound connector (`connect_out_socket`)
and the bounded graceful TLS shutdown (`shutdown_ssl_socket`), together
with the wire-sizing and socket-option fallback constants.

The C++ classes are event driven.  They are embedded as explicit state
machines: the mutable fields of each class become fields of a Lean
structure, each member function becomes a pure transition returning the
new state together with a record of the externally observable effects it
performed (writer invocations, fired completion handlers, delivered
reads, logging / destroy / socket actions).  Completion handlers are
identified by natural numbers; the body a handler executes when it is
invoked (it may re-enter the cache) is supplied by an environment
mapping handler ids to actions.  Byte strings are lists of naturals.
-/

set_option maxRecDepth 8192

/-! ## Wire sizing and socket-option fallback constants (utils.h lines 38-95) -/

def SO_ORIGINAL_DST : Nat := 80

def IP6T_SO_ORIGINAL_DST : Nat := 80

def IP_RECVTTL : Nat := 12

def IPV6_RECVHOPLIMIT : Nat := 51

def IPV6_HOPLIMIT : Nat := 21

def IP_TTL : Nat := 4

def IP_TRANSPARENT : Nat := 19

def IP_RECVORIGDSTADDR : Nat := 20

def IPV6_RECVORIGDSTADDR : Nat := 74

def PACKET_HEADER_SIZE : Nat := 1 + 28 + 2 + 64

def DEFAULT_PACKET_SIZE : Nat := 1397

/-! ## SendDataCache (utils.h lines 102-162)

State fields mirror the C++ data members.  `is_connected` is an external
predicate; its current value is passed to every transition as a boolean
`conn`.  A transition that calls the `async_writer` reports the byte
string it handed to the writer as a `some` value (the writer is invoked
at most once per transition, matching the single call site in
`async_send`). -/

structure SendDataCache where
  handler_queue : List Nat
  data_queue : List Nat
  sending_data_buff : List Nat
  sending_data_handler : List Nat
  is_async_sending : Bool
deriving DecidableEq, Repr

def SendDataCache.init : SendDataCache :=
  { handler_queue := []
    data_queue := []
    sending_data_buff := []
    sending_data_handler := []
    is_async_sending := false }

/-- Lines 137-150 of utils.h: the guard, the snapshot of `data_queue`
into `sending_data_buff`, the move of `handler_queue` onto the back of
`sending_data_handler`, the flag, and the single writer invocation with
the snapshot. -/
def SendDataCache.async_send (conn : Bool) (c : SendDataCache) :
    SendDataCache × Option (List Nat) :=
  if c.data_queue = [] ∨ conn = false ∨ c.is_async_sending = true then
    (c, none)
  else
    ({ handler_queue := []
       data_queue := []
       sending_data_buff := c.data_queue
       sending_data_handler := c.sending_data_handler ++ c.handler_queue
       is_async_sending := true }, some c.data_queue)

/-- Lines 131-135: append the bytes, append the handler, attempt a drain. -/
def SendDataCache.push_data (conn : Bool) (c : SendDataCache)
    (data : List Nat) (h : Nat) : SendDataCache × Option (List Nat) :=
  SendDataCache.async_send conn
    { c with data_queue := c.data_queue ++ data
             handler_queue := c.handler_queue ++ [h] }

/-- Lines 126-129: prepend the bytes (no handler), attempt a drain. -/
def SendDataCache.insert_data (conn : Bool) (c : SendDataCache)
    (data : List Nat) : SendDataCache × Option (List Nat) :=
  SendDataCache.async_send conn { c with data_queue := data ++ c.data_queue }

/-- The body a completion handler executes when invoked: nothing, or a
re-entrant `push_data` or `insert_data` on the same cache. -/
inductive CbAct where
  | nop : CbAct
  | pushAct (data : List Nat) (h : Nat) : CbAct
  | insertAct (data : List Nat) : CbAct
deriving DecidableEq, Repr

def nopEnv : Nat → CbAct := fun _ => CbAct.nop

def runCbAct (conn : Bool) (a : CbAct) (c : SendDataCache) :
    SendDataCache × Option (List Nat) :=
  match a with
  | CbAct.nop => (c, none)
  | CbAct.pushAct d h => SendDataCache.push_data conn c d h
  | CbAct.insertAct d => SendDataCache.insert_data conn c d

/-- Lines 154-156 of utils.h: the firing loop
`for (i = 0; i < sending_data_handler.size(); i++) sending_data_handler[i](ec);`.
The bound is re-read on every iteration, so handlers appended to
`sending_data_handler` by a re-entrant drain started from inside a fired
handler are themselves fired by the same loop.  Recursion is on an
explicit fuel; every theorem below either holds for all fuel values or
carries an adequacy bound. -/
def fireLoop (env : Nat → CbAct) (conn : Bool) :
    Nat → Nat → SendDataCache → SendDataCache × List Nat × List (List Nat)
  | 0, _, c => (c, [], [])
  | fuel + 1, i, c =>
    if i < c.sending_data_handler.length then
      let hid := c.sending_data_handler.getD i 0
      let p := runCbAct conn (env hid) c
      let r := fireLoop env conn fuel (i + 1) p.1
      (r.1, hid :: r.2.1, p.2.toList ++ r.2.2)
    else
      (c, [], [])

/-- Lines 150-160 of utils.h: the completion lambda handed to
`async_writer`.  It clears `is_async_sending`; on success it fires the
loop over `sending_data_handler`, clears `sending_data_handler` and
re-attempts the drain; on failure it does nothing further (in
particular `sending_data_handler` and `sending_data_buff` are kept).
Returns the new state, the fired handler ids in firing order, and the
byte strings handed to the writer during this completion. -/
def afterFired (conn : Bool)
    (r : SendDataCache × List Nat × List (List Nat)) :
    SendDataCache × Option (List Nat) :=
  SendDataCache.async_send conn
    { handler_queue := r.1.handler_queue
      data_queue := r.1.data_queue
      sending_data_buff := r.1.sending_data_buff
      sending_data_handler := []
      is_async_sending := r.1.is_async_sending }

def onWriteDone (env : Nat → CbAct) (conn : Bool) (fuel : Nat) (ok : Bool)
    (c : SendDataCache) : SendDataCache × List Nat × List (List Nat) :=
  match ok with
  | true =>
    ((afterFired conn (fireLoop env conn fuel 0 { c with is_async_sending := false })).1,
     (fireLoop env conn fuel 0 { c with is_async_sending := false }).2.1,
     (fireLoop env conn fuel 0 { c with is_async_sending := false }).2.2 ++
       (afterFired conn (fireLoop env conn fuel 0 { c with is_async_sending := false })).2.toList)
  | false =>
    ({ c with is_async_sending := false }, [], [])

/-! ### Traces of SendDataCache operations -/

/-- A top-level event delivered to the cache: an application call to
`push_data` or `insert_data`, or the completion (with success flag `ok`)
of the outstanding write.  Each event carries the value `is_connected()`
returns while it runs. -/
inductive SOp where
  | push (conn : Bool) (d : List Nat) (h : Nat) : SOp
  | ins (conn : Bool) (d : List Nat) : SOp
  | complete (conn : Bool) (ok : Bool) : SOp
deriving DecidableEq, Repr

structure RunResult where
  state : SendDataCache
  fired : List Nat
  writes : List (List Nat)
  completed : Nat
deriving DecidableEq, Repr

/-- Fuel that always suffices for the firing loop of one completion:
the loop can grow `sending_data_handler` at most once (the drain guard
blocks further growth once `is_async_sending` is set). -/
def stepFuel (c : SendDataCache) : Nat :=
  2 * (c.sending_data_handler.length + c.handler_queue.length) + 4

def stepS (env : Nat → CbAct) (c : SendDataCache) :
    SOp → SendDataCache × List Nat × List (List Nat) × Nat
  | SOp.push conn d h =>
    let p := SendDataCache.push_data conn c d h
    (p.1, [], p.2.toList, 0)
  | SOp.ins conn d =>
    let p := SendDataCache.insert_data conn c d
    (p.1, [], p.2.toList, 0)
  | SOp.complete conn ok =>
    if c.is_async_sending = true then
      let r := onWriteDone env conn (stepFuel c) ok c
      (r.1, r.2.1, r.2.2, 1)
    else
      (c, [], [], 0)

def runSAux (env : Nat → CbAct) (c : SendDataCache) :
    List SOp → RunResult
  | [] => ⟨c, [], [], 0⟩
  | op :: rest =>
    let s := stepS env c op
    let r := runSAux env s.1 rest
    ⟨r.state, s.2.1 ++ r.fired, s.2.2.1 ++ r.writes, s.2.2.2 + r.completed⟩

def runS (env : Nat → CbAct) (ops : List SOp) : RunResult :=
  runSAux env SendDataCache.init ops

/-- The completion handlers registered by the top-level `push` events of
a trace, in registration order. -/
def pushedHandlers : List SOp → List Nat
  | [] => []
  | SOp.push _ _ h :: rest => h :: pushedHandlers rest
  | _ :: rest => pushedHandlers rest

def flag01 (c : SendDataCache) : Nat :=
  if c.is_async_sending then 1 else 0

/-! ## ReadDataCache (utils.h lines 164-188)

`read_handler` holds the id of the waiting consumer (meaningful only
while `is_waiting` is set, exactly as the C++ `std::function` member is
only invoked while `is_waiting`).  A transition that delivers data
reports `some (handler id, bytes)`. -/

structure ReadDataCache where
  data_queue : List Nat
  read_handler : Nat
  is_waiting : Bool
deriving DecidableEq, Repr

def ReadDataCache.init : ReadDataCache :=
  { data_queue := [], read_handler := 0, is_waiting := false }

/-- Lines 170-177: deliver to a waiting consumer, else buffer. -/
def ReadDataCache.push_data (c : ReadDataCache) (d : List Nat) :
    ReadDataCache × Option (Nat × List Nat) :=
  if c.is_waiting then
    ({ c with is_waiting := false }, some (c.read_handler, d))
  else
    ({ c with data_queue := c.data_queue ++ d }, none)

/-- Lines 179-187: deliver the buffer if non-empty, else wait. -/
def ReadDataCache.async_read (c : ReadDataCache) (h : Nat) :
    ReadDataCache × Option (Nat × List Nat) :=
  if c.data_queue = [] then
    ({ c with is_waiting := true, read_handler := h }, none)
  else
    ({ c with data_queue := [] }, some (h, c.data_queue))

inductive ROp where
  | push (d : List Nat) : ROp
  | read (h : Nat) : ROp
deriving DecidableEq, Repr

def stepR (c : ReadDataCache) : ROp → ReadDataCache × Option (Nat × List Nat)
  | ROp.push d => c.push_data d
  | ROp.read h => c.async_read h

def runRAux (c : ReadDataCache) : List ROp → ReadDataCache × List (Nat × List Nat)
  | [] => (c, [])
  | op :: rest =>
    let s := stepR c op
    let r := runRAux s.1 rest
    (r.1, s.2.toList ++ r.2)

def runR (ops : List ROp) : ReadDataCache × List (Nat × List Nat) :=
  runRAux ReadDataCache.init ops

/-! ## connect_out_socket (utils.h lines 190-248)

The asynchronous environment is abstracted into a record: the outcome
of `async_resolve`, of `socket.open`, of the connect attempt, the
configured options and timeout, and — when a timeout timer exists — the
race outcome (whether the timer expires before the connect completes).
The function is embedded as the sequence of externally observable
actions the code performs, in program order for the sequential
event-loop semantics. -/

structure ConnConfig where
  no_delay : Bool
  keep_alive : Bool
  connect_time_out : Nat
deriving DecidableEq, Repr

structure ConnEnv where
  resolve_error : Bool
  resolve_results : List Nat
  open_error : Bool
  config : ConnConfig
  timer_fires_first : Bool
  connect_error : Bool
deriving DecidableEq, Repr

inductive CAction where
  | logResolveFail : CAction
  | logResolved (ep : Nat) : CAction
  | logTimeout : CAction
  | logConnectFail : CAction
  | destroy : CAction
  | openSock (ep : Nat) : CAction
  | setNoDelay : CAction
  | setKeepAlive : CAction
  | startTimer (seconds : Nat) : CAction
  | cancelTimer : CAction
  | asyncConnect (ep : Nat) : CAction
  | connectedCont : CAction
deriving DecidableEq, Repr

/-- Lines 226-231: the timer wait handler destroys the session on a
genuine expiry and does nothing when the wait was cancelled. -/
def timerHandler (aborted : Bool) : List CAction :=
  if aborted then [] else [CAction.logTimeout, CAction.destroy]

/-- Lines 234-246: the connect completion handler cancels the timer (if
one was created), then either takes the error path or invokes the
connected continuation. -/
def connectHandler (hasTimer : Bool) (err : Bool) : List CAction :=
  (if hasTimer then [CAction.cancelTimer] else []) ++
    (if err then [CAction.logConnectFail, CAction.destroy]
     else [CAction.connectedCont])

/-- Lines 207-212: optional socket options. -/
def optActions (cfg : ConnConfig) : List CAction :=
  (if cfg.no_delay then [CAction.setNoDelay] else []) ++
    (if cfg.keep_alive then [CAction.setKeepAlive] else [])

/-- Events after the connect attempt is issued.  With a timer: if the
timer expires first, its handler runs genuinely (timeout + destroy) and
the connect then completes on the torn-down socket with an error; if
the connect completes first, its handler runs and cancels the timer,
whose wait then completes as aborted.  Without a timer only the connect
handler runs. -/
def afterConnect (env : ConnEnv) : List CAction :=
  if 0 < env.config.connect_time_out then
    if env.timer_fires_first then
      timerHandler false ++ connectHandler true true
    else
      connectHandler true env.connect_error ++ timerHandler true
  else
    connectHandler false env.connect_error

/-- Lines 193-247 of utils.h as an action trace. -/
def connect_out_socket (env : ConnEnv) : List CAction :=
  if env.resolve_error = true ∨ env.resolve_results = [] then
    [CAction.logResolveFail, CAction.destroy]
  else
    let ep := env.resolve_results.headD 0
    if env.open_error then
      [CAction.logResolved ep, CAction.openSock ep, CAction.destroy]
    else
      [CAction.logResolved ep, CAction.openSock ep] ++ optActions env.config ++
        (if 0 < env.config.connect_time_out then
          [CAction.startTimer env.config.connect_time_out] else []) ++
        [CAction.asyncConnect ep] ++ afterConnect env

/-! ## shutdown_ssl_socket (utils.h lines 274-295)

Both the close-notify completion and the 30-second timer run the same
callback `ssl_shutdown_cb`.  The callback is a no-op on
`operation_aborted` and otherwise runs the finalizer: cancel the timer,
cancel and shut down both directions of and close the underlying
socket.  The race is modelled by the error codes the two completions
observe: `first_aborted` for whichever of the two completes first and
`second_aborted` for the loser. -/

inductive SAction where
  | cancelSock : SAction
  | startShutdown : SAction
  | startTimer30 : SAction
  | cancelTimer : SAction
  | shutdownBoth : SAction
  | closeSock : SAction
deriving DecidableEq, Repr

/-- Lines 279-288: the shared callback. -/
def ssl_shutdown_cb (aborted : Bool) : List SAction :=
  if aborted then []
  else [SAction.cancelTimer, SAction.cancelSock, SAction.shutdownBoth,
        SAction.closeSock]

/-- Lines 276-294 as an action trace: guard on `is_open`, cancel pending
operations, issue the close-notify, start the 30 second timer, then the
two completions run the shared callback with their observed codes. -/
def shutdown_ssl_socket (socket_open first_aborted second_aborted : Bool) :
    List SAction :=
  if socket_open then
    [SAction.cancelSock, SAction.startShutdown, SAction.startTimer30] ++
      ssl_shutdown_cb first_aborted ++ ssl_shutdown_cb second_aborted
  else []

/-! ### Counting lemmas: writer invocations versus the in-flight flag -/

theorem async_send_flag (conn : Bool) (c : SendDataCache) :
    (SendDataCache.async_send conn c).2.toList.length + flag01 c =
      flag01 (SendDataCache.async_send conn c).1 := by
  unfold SendDataCache.async_send
  split
  · simp
  · rename_i h
    push_neg at h
    simp only [Bool.not_eq_true] at h
    simp [flag01, h.2.2]

theorem push_data_flag (conn : Bool) (c : SendDataCache) (d : List Nat)
    (h : Nat) :
    (SendDataCache.push_data conn c d h).2.toList.length + flag01 c =
      flag01 (SendDataCache.push_data conn c d h).1 := by
  unfold SendDataCache.push_data
  have hs := async_send_flag conn
    { c with data_queue := c.data_queue ++ d
             handler_queue := c.handler_queue ++ [h] }
  simpa [flag01] using hs

theorem insert_data_flag (conn : Bool) (c : SendDataCache) (d : List Nat) :
    (SendDataCache.insert_data conn c d).2.toList.length + flag01 c =
      flag01 (SendDataCache.insert_data conn c d).1 := by
  unfold SendDataCache.insert_data
  have hs := async_send_flag conn { c with data_queue := d ++ c.data_queue }
  simpa [flag01] using hs

theorem runCbAct_flag (conn : Bool) (a : CbAct) (c : SendDataCache) :
    (runCbAct conn a c).2.toList.length + flag01 c =
      flag01 (runCbAct conn a c).1 := by
  cases a with
  | nop => simp [runCbAct]
  | pushAct d h => simpa [runCbAct] using push_data_flag conn c d h
  | insertAct d => simpa [runCbAct] using insert_data_flag conn c d

theorem fireLoop_flag (env : Nat → CbAct) (conn : Bool) :
    ∀ (fuel i : Nat) (c : SendDataCache),
      (fireLoop env conn fuel i c).2.2.length + flag01 c =
        flag01 (fireLoop env conn fuel i c).1
  | 0, i, c => by simp [fireLoop]
  | fuel + 1, i, c => by
    unfold fireLoop
    split
    · have h1 := runCbAct_flag conn (env (c.sending_data_handler.getD i 0)) c
      have h2 := fireLoop_flag env conn fuel (i + 1)
        (runCbAct conn (env (c.sending_data_handler.getD i 0)) c).1
      simp only [List.length_append]
      omega
    · simp

theorem flag01_set_false (c : SendDataCache) :
    flag01 { c with is_async_sending := false } = 0 := rfl

theorem flag01_clear_handlers (c : SendDataCache) :
    flag01 { c with sending_data_handler := [] } = flag01 c := rfl

theorem afterFired_flag (conn : Bool)
    (r : SendDataCache × List Nat × List (List Nat)) :
    (afterFired conn r).2.toList.length + flag01 r.1 =
      flag01 (afterFired conn r).1 := by
  unfold afterFired
  have hs := async_send_flag conn
    { handler_queue := r.1.handler_queue
      data_queue := r.1.data_queue
      sending_data_buff := r.1.sending_data_buff
      sending_data_handler := []
      is_async_sending := r.1.is_async_sending }
  simpa [flag01] using hs

theorem onWriteDone_flag (env : Nat → CbAct) (conn : Bool) (fuel : Nat)
    (ok : Bool) (c : SendDataCache) :
    (onWriteDone env conn fuel ok c).2.2.length =
      flag01 (onWriteDone env conn fuel ok c).1 := by
  cases ok with
  | false => simp [onWriteDone, flag01]
  | true =>
    have h1 := fireLoop_flag env conn fuel 0 { c with is_async_sending := false }
    have h2 := afterFired_flag conn
      (fireLoop env conn fuel 0 { c with is_async_sending := false })
    rw [flag01_set_false] at h1
    simp only [onWriteDone, List.length_append]
    omega

theorem stepS_flag (env : Nat → CbAct) (c : SendDataCache) (op : SOp) :
    (stepS env c op).2.2.1.length + flag01 c =
      (stepS env c op).2.2.2 + flag01 (stepS env c op).1 := by
  cases op with
  | push conn d h =>
    have hp := push_data_flag conn c d h
    simp only [stepS]
    omega
  | ins conn d =>
    have hp := insert_data_flag conn c d
    simp only [stepS]
    omega
  | complete conn ok =>
    simp only [stepS]
    split
    · rename_i hflag
      have hw := onWriteDone_flag env conn (stepFuel c) ok c
      simp only [flag01, hflag, if_pos]
      simp only [flag01] at hw
      omega
    · simp

theorem runSAux_flag (env : Nat → CbAct) :
    ∀ (ops : List SOp) (c : SendDataCache),
      (runSAux env c ops).writes.length + flag01 c =
        (runSAux env c ops).completed + flag01 (runSAux env c ops).state
  | [], c => by simp [runSAux]
  | op :: rest, c => by
    have h1 := stepS_flag env c op
    have h2 := runSAux_flag env rest (stepS env c op).1
    simp only [runSAux, List.length_append]
    omega

/-- C1: for every sequence of push_data/insert_data calls on a
SendDataCache, at most one underlying asynchronous write is outstanding
at any time.  `async_send` does nothing when the data queue is empty,
when `is_connected` reports false, or when a write is already in
flight; otherwise it atomically moves the entire current queue (bytes
and callbacks) into the in-flight buffers, clears the queue, sets the
write-in-progress flag and invokes the async writer exactly once with
that snapshot; data pushed while a write is outstanding accumulates in
the queue.  Over every trace (including re-entrant callback bodies) the
number of writer invocations equals the number of completions plus the
in-flight flag, hence at most one write is ever outstanding. -/
theorem C1_single_write_in_flight :
    (∀ (conn : Bool) (c : SendDataCache),
        c.data_queue = [] ∨ conn = false ∨ c.is_async_sending = true →
        SendDataCache.async_send conn c = (c, none)) ∧
    (∀ (conn : Bool) (c : SendDataCache),
        c.data_queue ≠ [] → conn = true → c.is_async_sending = false →
        SendDataCache.async_send conn c =
          ({ handler_queue := []
             data_queue := []
             sending_data_buff := c.data_queue
             sending_data_handler := c.sending_data_handler ++ c.handler_queue
             is_async_sending := true }, some c.data_queue)) ∧
    (∀ (conn : Bool) (c : SendDataCache) (d : List Nat) (h : Nat),
        c.is_async_sending = true →
        SendDataCache.push_data conn c d h =
          ({ c with data_queue := c.data_queue ++ d
                    handler_queue := c.handler_queue ++ [h] }, none)) ∧
    (∀ (conn : Bool) (c : SendDataCache) (d : List Nat),
        c.is_async_sending = true →
        SendDataCache.insert_data conn c d =
          ({ c with data_queue := d ++ c.data_queue }, none)) ∧
    (∀ (env : Nat → CbAct) (ops : List SOp),
        (runS env ops).writes.length =
          (runS env ops).completed + flag01 (runS env ops).state ∧
        (runS env ops).writes.length ≤ (runS env ops).completed + 1) := by
  refine ⟨?_, ?_, ?_, ?_, ?_⟩
  · intro conn c hg
    unfold SendDataCache.async_send
    rw [if_pos hg]
  · intro conn c h1 h2 h3
    unfold SendDataCache.async_send
    rw [if_neg]
    push_neg
    simp [h1, h2, h3]
  · intro conn c d h hflag
    unfold SendDataCache.push_data SendDataCache.async_send
    rw [if_pos]
    exact Or.inr (Or.inr hflag)
  · intro conn c d hflag
    unfold SendDataCache.insert_data SendDataCache.async_send
    rw [if_pos]
    exact Or.inr (Or.inr hflag)
  · intro env ops
    have h := runSAux_flag env ops SendDataCache.init
    have hinit : flag01 SendDataCache.init = 0 := rfl
    have hle : flag01 (runSAux env SendDataCache.init ops).state ≤ 1 := by
      unfold flag01
      split <;> omega
    unfold runS
    omega

/-- Witness for C1 at concrete inputs: the guard branch with a write in
flight, the drain branch, accumulation during an outstanding write, and
the trace-level count on a concrete trace. -/
theorem C1_witness :
    SendDataCache.async_send true ⟨[], [7], [], [], true⟩ =
      (⟨[], [7], [], [], true⟩, none) ∧
    SendDataCache.async_send true ⟨[4], [7], [], [5], false⟩ =
      (⟨[], [], [7], [5, 4], true⟩, some [7]) ∧
    SendDataCache.push_data true ⟨[], [7], [], [], true⟩ [8] 2 =
      (⟨[2], [7, 8], [], [], true⟩, none) ∧
    SendDataCache.insert_data true ⟨[], [7], [], [], true⟩ [8] =
      (⟨[], [8, 7], [], [], true⟩, none) ∧
    (runS nopEnv [SOp.push true [7] 1, SOp.push true [8] 2]).writes.length =
      (runS nopEnv [SOp.push true [7] 1, SOp.push true [8] 2]).completed +
        flag01 (runS nopEnv [SOp.push true [7] 1, SOp.push true [8] 2]).state := by
  refine ⟨?_, ?_, ?_, ?_, ?_⟩
  · exact C1_single_write_in_flight.1 true ⟨[], [7], [], [], true⟩
      (Or.inr (Or.inr rfl))
  · exact C1_single_write_in_flight.2.1 true ⟨[4], [7], [], [5], false⟩
      (by decide) rfl rfl
  · exact C1_single_write_in_flight.2.2.1 true ⟨[], [7], [], [], true⟩ [8] 2 rfl
  · exact C1_single_write_in_flight.2.2.2.1 true ⟨[], [7], [], [], true⟩ [8] rfl
  · exact (C1_single_write_in_flight.2.2.2.2 nopEnv
      [SOp.push true [7] 1, SOp.push true [8] 2]).1

/-! ### The firing loop under plain (non re-entrant) callbacks -/

theorem fireLoop_nop (conn : Bool) :
    ∀ (fuel i : Nat) (c : SendDataCache),
      c.sending_data_handler.length ≤ i + fuel →
      fireLoop nopEnv conn fuel i c = (c, c.sending_data_handler.drop i, [])
  | 0, i, c => fun hle => by
    have hd : c.sending_data_handler.drop i = [] :=
      List.drop_eq_nil_of_le (by omega)
    have hlt : ¬ i < c.sending_data_handler.length := by omega
    simp [fireLoop, hlt, hd]
  | fuel + 1, i, c => fun hle => by
    unfold fireLoop
    split
    · rename_i hlt
      simp only [nopEnv, runCbAct]
      have hrec := fireLoop_nop conn fuel (i + 1) c (by omega)
      rw [hrec]
      have hd : c.sending_data_handler.drop i =
          c.sending_data_handler.getD i 0 ::
            c.sending_data_handler.drop (i + 1) := by
        rw [List.getD_eq_getElem _ _ hlt]
        exact List.drop_eq_getElem_cons hlt
      simp [hd]
    · rename_i hlt
      push_neg at hlt
      have hd : c.sending_data_handler.drop i = List.drop i [] := by
        rw [List.drop_eq_nil_of_le hlt, List.drop_nil]
      simp [List.drop_eq_nil_of_le hlt]

/-- On a successful completion with no re-entrant callbacks: the flag is
cleared, every in-flight handler fires in stored order, the in-flight
record is cleared and the drain is re-attempted on the resulting
state. -/
theorem onWriteDone_nop_true (conn : Bool) (fuel : Nat) (c : SendDataCache)
    (hfuel : c.sending_data_handler.length ≤ fuel) :
    onWriteDone nopEnv conn fuel true c =
      ((SendDataCache.async_send conn
          { handler_queue := c.handler_queue
            data_queue := c.data_queue
            sending_data_buff := c.sending_data_buff
            sending_data_handler := []
            is_async_sending := false }).1,
       c.sending_data_handler,
       (SendDataCache.async_send conn
          { handler_queue := c.handler_queue
            data_queue := c.data_queue
            sending_data_buff := c.sending_data_buff
            sending_data_handler := []
            is_async_sending := false }).2.toList) := by
  have hl := fireLoop_nop conn fuel 0 { c with is_async_sending := false }
    (by simpa using hfuel)
  simp only [onWriteDone, afterFired]
  rw [hl]
  simp

theorem pushedHandlers_cons (op : SOp) (rest : List SOp) :
    pushedHandlers (op :: rest) = pushedHandlers [op] ++ pushedHandlers rest := by
  cases op <;> simp [pushedHandlers]

theorem stepS_handlers (c : SendDataCache) (op : SOp) :
    (stepS nopEnv c op).2.1 ++
      (stepS nopEnv c op).1.sending_data_handler ++
      (stepS nopEnv c op).1.handler_queue =
    c.sending_data_handler ++ c.handler_queue ++ pushedHandlers [op] := by
  cases op with
  | push conn d h =>
    simp only [stepS, pushedHandlers, SendDataCache.push_data]
    unfold SendDataCache.async_send
    split
    · simp
    · simp
  | ins conn d =>
    simp only [stepS, pushedHandlers, SendDataCache.insert_data]
    unfold SendDataCache.async_send
    split
    · simp
    · simp
  | complete conn ok =>
    simp only [stepS]
    split
    · cases ok with
      | false => simp [onWriteDone, pushedHandlers]
      | true =>
        have hw := onWriteDone_nop_true conn (stepFuel c) c
          (by unfold stepFuel; omega)
        rw [hw]
        unfold SendDataCache.async_send
        split
        · simp [pushedHandlers]
        · simp [pushedHandlers]
    · simp [pushedHandlers]

theorem runSAux_handlers :
    ∀ (ops : List SOp) (c : SendDataCache),
      (runSAux nopEnv c ops).fired ++
        (runSAux nopEnv c ops).state.sending_data_handler ++
        (runSAux nopEnv c ops).state.handler_queue =
      c.sending_data_handler ++ c.handler_queue ++ pushedHandlers ops
  | [], c => by simp [runSAux, pushedHandlers]
  | op :: rest, c => by
    have h1 := stepS_handlers c op
    have h2 := runSAux_handlers rest (stepS nopEnv c op).1
    have h3 := congrArg (fun l => l ++ pushedHandlers rest) h1
    rw [pushedHandlers_cons]
    simp only [runSAux]
    simp only [List.append_assoc] at h2 h3 ⊢
    rw [h2]
    exact h3

/-- C2: when an in-flight write completes successfully, the cache fires
every in-flight completion callback exactly once, in the order their
bytes were enqueued by `push_data`, then clears the in-flight callback
record, clears the write-in-progress flag, and re-attempts the drain;
over every trace of plain (non re-entrant) operations the sequence of
fired callbacks followed by the still-pending callbacks equals the
sequence of pushed callbacks in push order, so callbacks fire as
c1, c2, ... exactly in that order. -/
theorem C2_fire_in_enqueue_order :
    (∀ (conn : Bool) (fuel : Nat) (c : SendDataCache),
        c.sending_data_handler.length ≤ fuel →
        onWriteDone nopEnv conn fuel true c =
          ((SendDataCache.async_send conn
              { handler_queue := c.handler_queue
                data_queue := c.data_queue
                sending_data_buff := c.sending_data_buff
                sending_data_handler := []
                is_async_sending := false }).1,
           c.sending_data_handler,
           (SendDataCache.async_send conn
              { handler_queue := c.handler_queue
                data_queue := c.data_queue
                sending_data_buff := c.sending_data_buff
                sending_data_handler := []
                is_async_sending := false }).2.toList)) ∧
    (∀ ops : List SOp,
        (runS nopEnv ops).fired ++
          (runS nopEnv ops).state.sending_data_handler ++
          (runS nopEnv ops).state.handler_queue = pushedHandlers ops) := by
  constructor
  · intro conn fuel c hfuel
    exact onWriteDone_nop_true conn fuel c hfuel
  · intro ops
    have h := runSAux_handlers ops SendDataCache.init
    simpa [runS, SendDataCache.init] using h

/-- Witness for C2: a concrete completion firing the two in-flight
callbacks in order, and a concrete three-push trace with one successful
completion whose fired and pending callbacks line up in push order. -/
theorem C2_witness :
    onWriteDone nopEnv true 5 true ⟨[], [], [7, 8], [1, 2], true⟩ =
      (⟨[], [], [7, 8], [], false⟩, [1, 2], []) ∧
    (runS nopEnv [SOp.push true [7] 1, SOp.push true [8] 2,
        SOp.complete true true, SOp.push true [9] 3]).fired ++
      (runS nopEnv [SOp.push true [7] 1, SOp.push true [8] 2,
        SOp.complete true true, SOp.push true [9] 3]).state.sending_data_handler ++
      (runS nopEnv [SOp.push true [7] 1, SOp.push true [8] 2,
        SOp.complete true true, SOp.push true [9] 3]).state.handler_queue =
      pushedHandlers [SOp.push true [7] 1, SOp.push true [8] 2,
        SOp.complete true true, SOp.push true [9] 3] := by
  constructor
  · have h := C2_fire_in_enqueue_order.1 true 5 ⟨[], [], [7, 8], [1, 2], true⟩
      (by decide)
    rw [h]
    decide
  · exact C2_fire_in_enqueue_order.2 [SOp.push true [7] 1, SOp.push true [8] 2,
      SOp.complete true true, SOp.push true [9] 3]

/-- C3 counterexample: the claim says the callbacks of a failed
in-flight segment are never invoked afterwards.  In the code the failed
completion leaves `sending_data_handler` intact, so handler 1,
registered for the write that failed, fires (with a success code) when
the next write completes successfully: the trace
push([5],1); fail; push([6],2); ok fires [1, 2]. -/
theorem C3_counterexample :
    (runS nopEnv [SOp.push true [5] 1, SOp.complete true false,
        SOp.push true [6] 2, SOp.complete true true]).fired = [1, 2] ∧
    1 ∈ (runS nopEnv [SOp.push true [5] 1, SOp.complete true false,
        SOp.push true [6] 2, SOp.complete true true]).fired := by
  decide

/-- C3 amended: when an in-flight write completes with an error, the
cache clears the write-in-progress flag, fires no callback at that
moment and issues no new write; the failed bytes are dropped from the
in-flight buffer (never retransmitted), but the in-flight callback
record is retained, so those callbacks fire together with the next
successful completion rather than never. -/
theorem C3_error_completion_keeps_handlers (env : Nat → CbAct)
    (conn : Bool) (fuel : Nat) (c : SendDataCache) :
    onWriteDone env conn fuel false c =
      ({ c with is_async_sending := false }, [], []) := by
  simp [onWriteDone]

/-- C4: the claim says a completion callback never fires before the
underlying write carrying its bytes has completed successfully, even
when `push_data` is invoked re-entrantly from a firing callback.  The
code violates this: with handler 1 re-entrantly pushing bytes [9] with
handler 2, the trace push([5],1); ok issues the second write [9] from
inside the firing loop and then fires handler 2 while that write is
still outstanding (two writes issued, one completed, flag still set). -/
theorem C4_reentrant_push_fires_early :
    (runS (fun h => if h = 1 then CbAct.pushAct [9] 2 else CbAct.nop)
        [SOp.push true [5] 1, SOp.complete true true]).fired = [1, 2] ∧
    (runS (fun h => if h = 1 then CbAct.pushAct [9] 2 else CbAct.nop)
        [SOp.push true [5] 1, SOp.complete true true]).writes = [[5], [9]] ∧
    (runS (fun h => if h = 1 then CbAct.pushAct [9] 2 else CbAct.nop)
        [SOp.push true [5] 1, SOp.complete true true]).completed = 1 ∧
    (runS (fun h => if h = 1 then CbAct.pushAct [9] 2 else CbAct.nop)
        [SOp.push true [5] 1, SOp.complete true true]).state.is_async_sending
      = true ∧
    (runS (fun h => if h = 1 then CbAct.pushAct [9] 2 else CbAct.nop)
        [SOp.push true [5] 1, SOp.complete true true]).state.sending_data_handler
      = [] := by
  decide

/-- C5: `insert_data` prepends its bytes ahead of everything queued and
registers no completion callback, so when bytes b0 are queued but not
in flight the next write transmits the inserted bytes before b0;
`push_data` appends its bytes after everything queued. -/
theorem C5_insert_prepends :
    (∀ (conn : Bool) (c : SendDataCache) (d : List Nat),
        c.is_async_sending = false → conn = true → d ≠ [] →
        SendDataCache.insert_data conn c d =
          ({ handler_queue := []
             data_queue := []
             sending_data_buff := d ++ c.data_queue
             sending_data_handler := c.sending_data_handler ++ c.handler_queue
             is_async_sending := true }, some (d ++ c.data_queue))) ∧
    (∀ (conn : Bool) (c : SendDataCache) (d : List Nat),
        c.is_async_sending = true →
        SendDataCache.insert_data conn c d =
          ({ c with data_queue := d ++ c.data_queue }, none)) ∧
    (∀ (conn : Bool) (c : SendDataCache) (d : List Nat) (h : Nat),
        c.is_async_sending = true →
        SendDataCache.push_data conn c d h =
          ({ c with data_queue := c.data_queue ++ d
                    handler_queue := c.handler_queue ++ [h] }, none)) := by
  refine ⟨?_, ?_, ?_⟩
  · intro conn c d hflag hconn hd
    unfold SendDataCache.insert_data SendDataCache.async_send
    rw [if_neg]
    push_neg
    refine ⟨by simp [hd], by simp [hconn], by simp [hflag]⟩
  · intro conn c d hflag
    unfold SendDataCache.insert_data SendDataCache.async_send
    rw [if_pos]
    exact Or.inr (Or.inr hflag)
  · intro conn c d h hflag
    unfold SendDataCache.push_data SendDataCache.async_send
    rw [if_pos]
    exact Or.inr (Or.inr hflag)

/-- Witness for C5: queued bytes [4] not in flight, then insert of [9]
drains immediately with [9] transmitted first; and both in-flight
accumulation branches at concrete states. -/
theorem C5_witness :
    SendDataCache.insert_data true ⟨[1], [4], [], [], false⟩ [9] =
      (⟨[], [], [9, 4], [1], true⟩, some [9, 4]) ∧
    SendDataCache.insert_data true ⟨[], [4], [], [], true⟩ [9] =
      (⟨[], [9, 4], [], [], true⟩, none) ∧
    SendDataCache.push_data true ⟨[], [4], [], [], true⟩ [9] 2 =
      (⟨[2], [4, 9], [], [], true⟩, none) := by
  refine ⟨?_, ?_, ?_⟩
  · exact C5_insert_prepends.1 true ⟨[1], [4], [], [], false⟩ [9] rfl rfl
      (by decide)
  · exact C5_insert_prepends.2.1 true ⟨[], [4], [], [], true⟩ [9] rfl
  · exact C5_insert_prepends.2.2 true ⟨[], [4], [], [], true⟩ [9] 2 rfl

/-! ### ReadDataCache invariant -/

theorem stepR_inv (c : ReadDataCache) (op : ROp)
    (h : c.data_queue = [] ∨ c.is_waiting = false) :
    (stepR c op).1.data_queue = [] ∨ (stepR c op).1.is_waiting = false := by
  cases op with
  | push d =>
    simp only [stepR, ReadDataCache.push_data]
    split
    · simp
    · rename_i hw
      right
      simpa using hw
  | read hid =>
    simp only [stepR, ReadDataCache.async_read]
    split
    · rename_i hq
      left
      simpa using hq
    · simp

theorem runRAux_inv :
    ∀ (ops : List ROp) (c : ReadDataCache),
      c.data_queue = [] ∨ c.is_waiting = false →
      (runRAux c ops).1.data_queue = [] ∨ (runRAux c ops).1.is_waiting = false
  | [], c => fun h => by simpa [runRAux] using h
  | op :: rest, c => fun h => by
    have h1 := stepR_inv c op h
    have h2 := runRAux_inv rest (stepR c op).1 h1
    simpa [runRAux] using h2

/-- C6: the ReadDataCache never has buffered bytes and a waiting
consumer simultaneously; `push_data` delivers immediately to a waiting
consumer (clearing the waiting state) and otherwise appends to the
buffer; `async_read` delivers the whole buffer immediately (clearing
it) when non-empty and otherwise records the waiting consumer; pushing
then reading delivers, and reading then pushing delivers too. -/
theorem C6_read_cache_exclusive :
    (∀ ops : List ROp,
        (runR ops).1.data_queue = [] ∨ (runR ops).1.is_waiting = false) ∧
    (∀ (c : ReadDataCache) (d : List Nat),
        c.is_waiting = true →
        c.push_data d = ({ c with is_waiting := false },
          some (c.read_handler, d))) ∧
    (∀ (c : ReadDataCache) (d : List Nat),
        c.is_waiting = false →
        c.push_data d = ({ c with data_queue := c.data_queue ++ d }, none)) ∧
    (∀ (c : ReadDataCache) (h : Nat),
        c.data_queue = [] →
        c.async_read h = ({ c with is_waiting := true, read_handler := h },
          none)) ∧
    (∀ (c : ReadDataCache) (h : Nat),
        c.data_queue ≠ [] →
        c.async_read h = ({ c with data_queue := [] },
          some (h, c.data_queue))) ∧
    (runR [ROp.push [120], ROp.read 7]).2 = [(7, [120])] ∧
    (runR [ROp.read 7, ROp.push [120]]).2 = [(7, [120])] := by
  refine ⟨?_, ?_, ?_, ?_, ?_, ?_, ?_⟩
  · intro ops
    exact runRAux_inv ops ReadDataCache.init (Or.inl rfl)
  · intro c d hw
    simp [ReadDataCache.push_data, hw]
  · intro c d hw
    simp [ReadDataCache.push_data, hw]
  · intro c h hq
    simp [ReadDataCache.async_read, hq]
  · intro c h hq
    simp [ReadDataCache.async_read, hq]
  · decide
  · decide

/-- Witness for C6: the invariant on a concrete trace and the four
delivery branches at concrete states. -/
theorem C6_witness :
    ((runR [ROp.push [120], ROp.read 7]).1.data_queue = [] ∨
      (runR [ROp.push [120], ROp.read 7]).1.is_waiting = false) ∧
    ReadDataCache.push_data ⟨[], 7, true⟩ [3] = (⟨[], 7, false⟩, some (7, [3])) ∧
    ReadDataCache.push_data ⟨[4], 0, false⟩ [3] = (⟨[4, 3], 0, false⟩, none) ∧
    ReadDataCache.async_read ⟨[], 0, false⟩ 9 = (⟨[], 9, true⟩, none) ∧
    ReadDataCache.async_read ⟨[4], 0, false⟩ 9 = (⟨[], 0, false⟩, some (9, [4])) := by
  refine ⟨?_, ?_, ?_, ?_, ?_⟩
  · exact C6_read_cache_exclusive.1 [ROp.push [120], ROp.read 7]
  · exact C6_read_cache_exclusive.2.1 ⟨[], 7, true⟩ [3] rfl
  · exact C6_read_cache_exclusive.2.2.1 ⟨[4], 0, false⟩ [3] rfl
  · exact C6_read_cache_exclusive.2.2.2.1 ⟨[], 0, false⟩ 9 rfl
  · exact C6_read_cache_exclusive.2.2.2.2.1 ⟨[4], 0, false⟩ 9 (by decide)

/-! ### Connector helper lemmas -/

theorem optActions_no_open (cfg : ConnConfig) (e : Nat) :
    CAction.openSock e ∉ optActions cfg := by
  intro h
  by_cases h1 : cfg.no_delay <;> by_cases h2 : cfg.keep_alive <;>
    simp [optActions, h1, h2] at h

theorem optActions_no_connect (cfg : ConnConfig) (e : Nat) :
    CAction.asyncConnect e ∉ optActions cfg := by
  intro h
  by_cases h1 : cfg.no_delay <;> by_cases h2 : cfg.keep_alive <;>
    simp [optActions, h1, h2] at h

theorem afterConnect_no_open (env : ConnEnv) (e : Nat) :
    CAction.openSock e ∉ afterConnect env := by
  intro h
  by_cases h1 : 0 < env.config.connect_time_out <;>
    cases h2 : env.timer_fires_first <;>
    cases h3 : env.connect_error <;>
    simp [afterConnect, timerHandler, connectHandler, h1, h2, h3] at h

theorem afterConnect_no_connect (env : ConnEnv) (e : Nat) :
    CAction.asyncConnect e ∉ afterConnect env := by
  intro h
  by_cases h1 : 0 < env.config.connect_time_out <;>
    cases h2 : env.timer_fires_first <;>
    cases h3 : env.connect_error <;>
    simp [afterConnect, timerHandler, connectHandler, h1, h2, h3] at h

/-- C7: resolution failure (error or empty result set) logs and
destroys the session exactly once with no socket open and no connect
attempt; on success only the first resolved address is ever opened or
connected to; an open failure likewise destroys the session and stops
the attempt before any connect. -/
theorem C7_resolution_failure_destroys :
    ∀ env : ConnEnv,
      (env.resolve_error = true ∨ env.resolve_results = [] →
        connect_out_socket env = [CAction.logResolveFail, CAction.destroy]) ∧
      (env.resolve_error = false → env.resolve_results ≠ [] →
        env.open_error = true →
        connect_out_socket env =
          [CAction.logResolved (env.resolve_results.headD 0),
           CAction.openSock (env.resolve_results.headD 0),
           CAction.destroy]) ∧
      (∀ e : Nat, CAction.openSock e ∈ connect_out_socket env →
        e = env.resolve_results.headD 0) ∧
      (∀ e : Nat, CAction.asyncConnect e ∈ connect_out_socket env →
        e = env.resolve_results.headD 0) := by
  intro env
  refine ⟨?_, ?_, ?_, ?_⟩
  · intro h
    unfold connect_out_socket
    rw [if_pos h]
  · intro h1 h2 h3
    unfold connect_out_socket
    rw [if_neg (by simp [h1, h2])]
    simp [h3]
  · intro e he
    by_cases hr : env.resolve_error = true ∨ env.resolve_results = []
    · unfold connect_out_socket at he
      rw [if_pos hr] at he
      simp at he
    · unfold connect_out_socket at he
      rw [if_neg hr] at he
      by_cases ho : env.open_error <;>
        by_cases hT : 0 < env.config.connect_time_out <;>
        simp [ho, hT, optActions_no_open env.config e,
          afterConnect_no_open env e] at he <;>
        simpa using he
  · intro e he
    by_cases hr : env.resolve_error = true ∨ env.resolve_results = []
    · unfold connect_out_socket at he
      rw [if_pos hr] at he
      simp at he
    · unfold connect_out_socket at he
      rw [if_neg hr] at he
      by_cases ho : env.open_error <;>
        by_cases hT : 0 < env.config.connect_time_out <;>
        simp [ho, hT, optActions_no_connect env.config e,
          afterConnect_no_connect env e] at he <;>
        simpa using he

/-- Witness for C7 at concrete environments: an empty resolution
result, an open failure, and the first-address facts on a successful
run. -/
theorem C7_witness :
    connect_out_socket ⟨false, [], false, ⟨false, false, 0⟩, false, false⟩ =
      [CAction.logResolveFail, CAction.destroy] ∧
    connect_out_socket ⟨false, [3, 4], true, ⟨false, false, 0⟩, false, false⟩ =
      [CAction.logResolved 3, CAction.openSock 3, CAction.destroy] ∧
    (CAction.openSock 4 ∈
        connect_out_socket ⟨false, [3, 4], false, ⟨false, false, 0⟩, false, false⟩ →
      (4 : Nat) = 3) := by
  refine ⟨?_, ?_, ?_⟩
  · exact (C7_resolution_failure_destroys
      ⟨false, [], false, ⟨false, false, 0⟩, false, false⟩).1 (Or.inr rfl)
  · exact (C7_resolution_failure_destroys
      ⟨false, [3, 4], true, ⟨false, false, 0⟩, false, false⟩).2.1 rfl
      (by decide) rfl
  · exact (C7_resolution_failure_destroys
      ⟨false, [3, 4], false, ⟨false, false, 0⟩, false, false⟩).2.2.1 4

/-- C8: with a positive connect timeout the timer is started
immediately before the connect is issued; if the timer expires before
the connect completes, a timeout is logged and the session destroyed;
if the connect completes first its handler cancels the timer and the
timer wait then finishes as aborted and does nothing, so the timer
never destroys the session after a connect completion. -/
theorem C8_connect_timeout_race (env : ConnEnv)
    (hr : env.resolve_error = false) (hn : env.resolve_results ≠ [])
    (ho : env.open_error = false) (hT : 0 < env.config.connect_time_out) :
    (connect_out_socket env =
      [CAction.logResolved (env.resolve_results.headD 0),
       CAction.openSock (env.resolve_results.headD 0)] ++
        optActions env.config ++
        [CAction.startTimer env.config.connect_time_out,
         CAction.asyncConnect (env.resolve_results.headD 0)] ++
        afterConnect env) ∧
    (env.timer_fires_first = true →
      afterConnect env =
        [CAction.logTimeout, CAction.destroy, CAction.cancelTimer,
         CAction.logConnectFail, CAction.destroy]) ∧
    (env.timer_fires_first = false →
      afterConnect env =
        CAction.cancelTimer ::
          (if env.connect_error then
            [CAction.logConnectFail, CAction.destroy]
          else [CAction.connectedCont])) ∧
    timerHandler true = [] := by
  refine ⟨?_, ?_, ?_, rfl⟩
  · unfold connect_out_socket
    rw [if_neg (by simp [hr, hn])]
    simp [ho, hT]
  · intro h2
    simp [afterConnect, timerHandler, connectHandler, hT, h2]
  · intro h2
    by_cases h3 : env.connect_error <;>
      simp [afterConnect, timerHandler, connectHandler, hT, h2, h3]

/-- Witness for C8: the trace shape and the timer-first outcome at one
concrete environment, and the connect-first outcome at another. -/
theorem C8_witness :
    connect_out_socket ⟨false, [3], false, ⟨false, false, 5⟩, true, false⟩ =
      [CAction.logResolved 3, CAction.openSock 3] ++
        optActions ⟨false, false, 5⟩ ++
        [CAction.startTimer 5, CAction.asyncConnect 3] ++
        afterConnect ⟨false, [3], false, ⟨false, false, 5⟩, true, false⟩ ∧
    afterConnect ⟨false, [3], false, ⟨false, false, 5⟩, true, false⟩ =
      [CAction.logTimeout, CAction.destroy, CAction.cancelTimer,
       CAction.logConnectFail, CAction.destroy] ∧
    afterConnect ⟨false, [3], false, ⟨false, false, 5⟩, false, false⟩ =
      CAction.cancelTimer ::
        (if (⟨false, [3], false, ⟨false, false, 5⟩, false, false⟩ :
            ConnEnv).connect_error then
          [CAction.logConnectFail, CAction.destroy]
        else [CAction.connectedCont]) := by
  refine ⟨?_, ?_, ?_⟩
  · exact (C8_connect_timeout_race
      ⟨false, [3], false, ⟨false, false, 5⟩, true, false⟩ rfl (by decide) rfl
      (by decide)).1
  · exact (C8_connect_timeout_race
      ⟨false, [3], false, ⟨false, false, 5⟩, true, false⟩ rfl (by decide) rfl
      (by decide)).2.1 rfl
  · exact (C8_connect_timeout_race
      ⟨false, [3], false, ⟨false, false, 5⟩, false, false⟩ rfl (by decide) rfl
      (by decide)).2.2.1 rfl

/-- C9: in the graceful TLS shutdown, the first of the close-notify
completion and the 30 second timer to finish observes a non-aborted
code and runs the shared finalizer exactly once (cancel the timer, then
cancel, shut down both directions of and close the socket); the loser
is cancelled by that finalizer, observes the aborted code and does
nothing, so the socket is closed exactly once in every race outcome. -/
theorem C9_shutdown_finalizer_once (first_aborted second_aborted : Bool)
    (h1 : first_aborted = false) (h2 : second_aborted = true) :
    shutdown_ssl_socket true first_aborted second_aborted =
      [SAction.cancelSock, SAction.startShutdown, SAction.startTimer30,
       SAction.cancelTimer, SAction.cancelSock, SAction.shutdownBoth,
       SAction.closeSock] ∧
    ssl_shutdown_cb true = [] ∧
    ssl_shutdown_cb false =
      [SAction.cancelTimer, SAction.cancelSock, SAction.shutdownBoth,
       SAction.closeSock] ∧
    (shutdown_ssl_socket true first_aborted second_aborted).count
      SAction.closeSock = 1 := by
  subst h1
  subst h2
  refine ⟨?_, rfl, rfl, ?_⟩
  · decide
  · decide

/-- Witness for C9: the race at the concrete error codes. -/
theorem C9_witness :
    shutdown_ssl_socket true false true =
      [SAction.cancelSock, SAction.startShutdown, SAction.startTimer30,
       SAction.cancelTimer, SAction.cancelSock, SAction.shutdownBoth,
       SAction.closeSock] ∧
    (shutdown_ssl_socket true false true).count SAction.closeSock = 1 := by
  refine ⟨(C9_shutdown_finalizer_once false true rfl rfl).1,
    (C9_shutdown_finalizer_once false true rfl rfl).2.2.2⟩

/-- C10: the wire-sizing constants and the fallback socket-option
numeric literals have exactly the values fixed in utils.h. -/
theorem C10_constant_values :
    PACKET_HEADER_SIZE = 95 ∧
    DEFAULT_PACKET_SIZE = 1397 ∧
    DEFAULT_PACKET_SIZE = 1492 - PACKET_HEADER_SIZE ∧
    SO_ORIGINAL_DST = 80 ∧
    IP6T_SO_ORIGINAL_DST = 80 ∧
    IP_TRANSPARENT = 19 ∧
    IP_RECVORIGDSTADDR = 20 ∧
    IPV6_RECVORIGDSTADDR = 74 ∧
    IP_RECVTTL = 12 ∧
    IPV6_RECVHOPLIMIT = 51 ∧
    IPV6_HOPLIMIT = 21 ∧
    IP_TTL = 4 := by
  decide
